import Mathlib

/-!
Verification of the Finalyze earnings-report analyzer against its
natural-language specification.

The development shallowly embeds the Python sources:

* `src/Modules/store.py`   — ChromaDB-backed history store (save, get, history,
  similarity query, company context);
* `src/Modules/analyzer.py` and `src/Modules/providers.py` — the LangChain
  orchestrator and the provider-client factory;
* `src/earnings_analyzer.py` — the legacy Anthropic-only analyzer with manual
  JSON-fence extraction;
* `src/web_dashboard.py`   — the FastAPI `analyze` endpoint's control flow.

Python dictionaries/JSON payloads are modelled by the inductive `Json`
(numbers are restricted to integers: no claim involves non-integer numerics).
Python runtime exceptions are modelled by `Except PyErr`.  External
collaborators (ChromaDB's nearest-neighbour search, the provider SDKs, the
LLM responses) enter as explicit oracle parameters or, where the repository
references code that does not exist anywhere in it, as definitions marked
"Modelled from the spec".
-/

/-- Model of a Python JSON-serializable value (`dict`/`list`/`str`/`int`/
`bool`/`None`).  Non-integer numerics are outside the model; objects are
association lists in insertion order (keys assumed distinct, as produced by
Python dicts). -/
inductive Json where
  | null : Json
  | bool (b : Bool) : Json
  | int (n : Int) : Json
  | str (s : String) : Json
  | arr (elems : List Json) : Json
  | obj (fields : List (String × Json)) : Json

/-- Model of a Python runtime exception, tagged by kind and message. -/
inductive PyErr where
  | keyError (key : String)
  | valueError (msg : String)
  | typeError (msg : String)
  | attributeError (msg : String)
  | jsonDecodeError (msg : String)
  | configurationError (msg : String)
  | storeError (msg : String)
deriving DecidableEq, Repr

/-- `str(e)` on an exception: the message text carried by the error. -/
def PyErr.text : PyErr → String
  | .keyError k => k
  | .valueError m => m
  | .typeError m => m
  | .attributeError m => m
  | .jsonDecodeError m => m
  | .configurationError m => m
  | .storeError m => m

/-- Python truthiness: `None`, `False`, `0`, `""`, `[]`, `{}` are falsy. -/
def Json.truthy : Json → Bool
  | .null => false
  | .bool b => b
  | .int n => n != 0
  | .str s => s != ""
  | .arr xs => !xs.isEmpty
  | .obj kvs => !kvs.isEmpty

/-- `d.get(key, default)`: association lookup with a default, raising
`AttributeError` when the receiver is not a dict (Python: `.get` on a
non-dict value). -/
def Json.pyGetD (j : Json) (key : String) (dflt : Json) : Except PyErr Json :=
  match j with
  | .obj kvs => .ok ((kvs.lookup key).getD dflt)
  | _ => .error (.attributeError "object has no attribute get")

/-- `d[key] = v` on a dict: update in place when the key exists (order kept),
append otherwise.  On a non-dict the source sites using this are unreachable,
so the value is returned unchanged. -/
def assocSet : List (String × Json) → String → Json → List (String × Json)
  | [], key, v => [(key, v)]
  | (k, w) :: rest, key, v =>
      if k = key then (key, v) :: rest else (k, w) :: assocSet rest key v

/-- `d[key] = v` lifted to `Json` (only ever applied to dicts in the source). -/
def Json.setKey : Json → String → Json → Json
  | .obj kvs, key, v => .obj (assocSet kvs key v)
  | j, _, _ => j

mutual
/-- Python `repr` of a JSON-like value (string-escaping subtleties elided:
no claim depends on the rendering of quotes inside strings). -/
def pyRepr : Json → String
  | .null => "None"
  | .bool true => "True"
  | .bool false => "False"
  | .int n => toString n
  | .str s => "'" ++ s ++ "'"
  | .arr xs => "[" ++ pyReprList xs ++ "]"
  | .obj kvs => "\x7b" ++ pyReprFields kvs ++ "\x7d"

/-- `repr` of list elements, comma-separated. -/
def pyReprList : List Json → String
  | [] => ""
  | [x] => pyRepr x
  | x :: xs => pyRepr x ++ ", " ++ pyReprList xs

/-- `repr` of dict entries, comma-separated. -/
def pyReprFields : List (String × Json) → String
  | [] => ""
  | [(k, v)] => "'" ++ k ++ "': " ++ pyRepr v
  | (k, v) :: kvs => "'" ++ k ++ "': " ++ pyRepr v ++ ", " ++ pyReprFields kvs
end

/-- Python `str()`: identical to `repr` except on strings, which render
verbatim (this is what an f-string interpolation applies). -/
def pyStr : Json → String
  | .str s => s
  | j => pyRepr j

/-- Digits of a decimal literal folded to a natural number. -/
def digitsToNat (ds : List Char) : Nat :=
  ds.foldl (fun n c => n * 10 + (c.toNat - '0'.toNat)) 0

/-- Python whitespace for `str.strip()` / `int()` (the six ASCII space
characters). -/
def isPyWs (c : Char) : Bool :=
  c == ' ' || c == '\t' || c == '\n' || c == '\r' || c == '\x0b' || c == '\x0c'

/-- `str.strip()`: drop whitespace from both ends. -/
def pyStrip (s : String) : String :=
  ⟨((s.data.dropWhile isPyWs).reverse.dropWhile isPyWs).reverse⟩

/-- `int()` applied to a string: strip, optional sign, decimal digits
(`ValueError` otherwise; numeric-literal underscores are not modelled). -/
def pyIntOfStr (s : String) : Except PyErr Int :=
  let core : List Char → Except PyErr Int := fun ds =>
    if ds ≠ [] ∧ ds.all Char.isDigit then .ok (digitsToNat ds : Nat)
    else .error (.valueError ("invalid literal for int: " ++ s))
  match (pyStrip s).data with
  | '-' :: ds => do let n ← core ds; pure (-n)
  | '+' :: ds => core ds
  | ds => core ds

/-- Python `int(x)` on a JSON-like value: ints pass through, booleans map to
0/1, numeric strings parse, everything else raises. -/
def pyInt : Json → Except PyErr Int
  | .int n => .ok n
  | .bool b => .ok (if b then 1 else 0)
  | .str s => pyIntOfStr s
  | _ => .error (.typeError "int() argument must be a string or a number")

/-- The elements of a list iterable, all required to be `str`. -/
def strItems : List Json → Except PyErr (List String)
  | [] => .ok []
  | Json.str s :: rest => do
      let tail ← strItems rest
      pure (s :: tail)
  | _ :: _ => .error (.typeError "sequence item: expected str instance")

/-- `sep.join(x)`: joins an iterable of strings.  Lists require every element
to be a `str`; iterating a `str` yields its characters; iterating a dict
yields its keys; other values are not iterable. -/
def pyJoin (sep : String) : Json → Except PyErr String
  | .arr xs => do
      let parts ← strItems xs
      pure (String.intercalate sep parts)
  | .str s => .ok (String.intercalate sep (s.data.map fun c => String.mk [c]))
  | .obj kvs => .ok (String.intercalate sep (kvs.map (·.1)))
  | _ => .error (.typeError "can only join an iterable")

/-- `s.replace(" ", "_")`: single-character replacement is a character map. -/
def pyReplaceSpace (s : String) : String :=
  ⟨s.data.map fun c => if c = ' ' then '_' else c⟩

/-- `s.find(sub, start)`: least index `i ≥ start` where `sub` occurs, else
`-1`. -/
def pyFind (s sub : String) (start : Nat) : Int :=
  match (List.range (s.data.length + 1)).find?
      (fun i => decide (start ≤ i) && sub.data.isPrefixOf (s.data.drop i)) with
  | some i => (i : Int)
  | none => -1

/-- `sub in s` for strings. -/
def pyContains (s sub : String) : Bool :=
  0 ≤ pyFind s sub 0

/-- Clamp a Python slice bound to an index of a list of length `len`. -/
def sliceBound (len : Nat) (i : Int) : Nat :=
  if i < 0 then (max 0 ((len : Int) + i)).toNat else min i.toNat len

/-- `s[a:b]` with Python's negative-index and clamping semantics. -/
def pySlice (s : String) (a b : Int) : String :=
  let lo := sliceBound s.data.length a
  let hi := sliceBound s.data.length b
  ⟨(s.data.take hi).drop lo⟩

/-- `l[:n]` on a list, with Python's negative-bound semantics. -/
def pySliceTo (n : Int) (l : List α) : List α :=
  l.take (sliceBound l.length n)

/-- JSON whitespace accepted between tokens by `json.loads`. -/
def skipWs (s : List Char) : List Char :=
  s.dropWhile fun c => c == ' ' || c == '\t' || c == '\n' || c == '\r'

/-- Hexadecimal digit value, for `\uXXXX` escapes. -/
def hexVal (c : Char) : Option Nat :=
  if c.isDigit then some (c.toNat - '0'.toNat)
  else if 'a' ≤ c ∧ c ≤ 'f' then some (c.toNat - 'a'.toNat + 10)
  else if 'A' ≤ c ∧ c ≤ 'F' then some (c.toNat - 'A'.toNat + 10)
  else none

/-- Decimal-digit run at the head of the input. -/
def parseNat (s : List Char) : Except String (Nat × List Char) :=
  let ds := s.takeWhile Char.isDigit
  if ds.isEmpty then .error "expecting value"
  else .ok (digitsToNat ds, s.drop ds.length)

mutual
/-- One JSON value (fueled recursive-descent model of `json.loads`; integer
numerics only — a `.`/`e` after the digits is left unconsumed and therefore
rejected by the top-level end-of-input check or the surrounding structure). -/
def parseVal : Nat → List Char → Except String (Json × List Char)
  | 0, _ => .error "fuel exhausted"
  | fuel + 1, s =>
    match skipWs s with
    | 'n' :: 'u' :: 'l' :: 'l' :: r => .ok (.null, r)
    | 't' :: 'r' :: 'u' :: 'e' :: r => .ok (.bool true, r)
    | 'f' :: 'a' :: 'l' :: 's' :: 'e' :: r => .ok (.bool false, r)
    | '"' :: r => do
        let (str, r') ← parseStrBody fuel r []
        pure (.str str, r')
    | '[' :: r =>
        (match skipWs r with
         | ']' :: r' => .ok (.arr [], r')
         | _ => do
            let (xs, r') ← parseElems fuel r
            pure (.arr xs, r'))
    | '\x7b' :: r =>
        (match skipWs r with
         | '\x7d' :: r' => .ok (.obj [], r')
         | _ => do
            let (kvs, r') ← parseFields fuel r
            pure (.obj kvs, r'))
    | '-' :: r => do
        let (n, r') ← parseNat r
        pure (.int (-(n : Int)), r')
    | c :: r =>
        if c.isDigit then do
          let (n, r') ← parseNat (c :: r)
          pure (.int (n : Int), r')
        else .error "expecting value"
    | [] => .error "expecting value"

/-- String body after the opening quote, with the common escapes. -/
def parseStrBody : Nat → List Char → List Char → Except String (String × List Char)
  | 0, _, _ => .error "fuel exhausted"
  | _ + 1, [], _ => .error "unterminated string"
  | fuel + 1, c :: r, acc =>
    if c = '"' then .ok (String.mk acc.reverse, r)
    else if c = '\\' then
      match r with
      | 'u' :: h1 :: h2 :: h3 :: h4 :: r' =>
          (match hexVal h1, hexVal h2, hexVal h3, hexVal h4 with
           | some a, some b, some c', some d =>
              parseStrBody fuel r' (Char.ofNat (((a * 16 + b) * 16 + c') * 16 + d) :: acc)
           | _, _, _, _ => .error "invalid unicode escape")
      | e :: r' =>
          (match e with
           | '"' => parseStrBody fuel r' ('"' :: acc)
           | '\\' => parseStrBody fuel r' ('\\' :: acc)
           | '/' => parseStrBody fuel r' ('/' :: acc)
           | 'n' => parseStrBody fuel r' ('\n' :: acc)
           | 't' => parseStrBody fuel r' ('\t' :: acc)
           | 'r' => parseStrBody fuel r' ('\r' :: acc)
           | 'b' => parseStrBody fuel r' ('\x08' :: acc)
           | 'f' => parseStrBody fuel r' ('\x0c' :: acc)
           | _ => .error "invalid escape")
      | [] => .error "unterminated string"
    else parseStrBody fuel r (c :: acc)

/-- Non-empty comma-separated array elements, up to the closing bracket. -/
def parseElems : Nat → List Char → Except String (List Json × List Char)
  | 0, _ => .error "fuel exhausted"
  | fuel + 1, s => do
    let (v, r) ← parseVal fuel s
    match skipWs r with
    | ',' :: r' => do
        let (xs, r'') ← parseElems fuel r'
        pure (v :: xs, r'')
    | ']' :: r' => pure ([v], r')
    | _ => .error "expecting comma or bracket"

/-- Non-empty comma-separated object members, up to the closing brace. -/
def parseFields : Nat → List Char → Except String (List (String × Json) × List Char)
  | 0, _ => .error "fuel exhausted"
  | fuel + 1, s =>
    match skipWs s with
    | '"' :: r => do
        let (k, r1) ← parseStrBody fuel r []
        match skipWs r1 with
        | ':' :: r2 => do
            let (v, r3) ← parseVal fuel r2
            match skipWs r3 with
            | ',' :: r4 => do
                let (kvs, r5) ← parseFields fuel r4
                pure ((k, v) :: kvs, r5)
            | '\x7d' :: r4 => pure ([(k, v)], r4)
            | _ => .error "expecting comma or brace"
        | _ => .error "expecting colon"
    | _ => .error "expecting property name"
end

/-- `json.loads`: parse one value and require only whitespace to follow.
Models the stdlib parser on the integer-numeric subset used by this system
(floats, duplicate keys and leading-zero edge cases are outside the model). -/
def jsonLoads (s : String) : Except PyErr Json :=
  match parseVal (4 * s.data.length + 16) s.data with
  | .ok (v, rest) =>
      if (skipWs rest).isEmpty then .ok v else .error (.jsonDecodeError "Extra data")
  | .error e => .error (.jsonDecodeError e)

/-- ChromaDB metadata written by `save_report`.  `analysisJson` holds the
value serialized by `json.dumps(analysis)`; `json.loads ∘ json.dumps` is the
identity on JSON-serializable values, so the model stores the value itself. -/
structure RecordMeta where
  company : Json
  ticker : Json
  quarter : Json
  timestamp : String
  sentimentScore : Int
  analysisJson : Json

/-- One record of the `reports` collection: id, embedded document text and
scalar metadata. -/
structure StoredEntry where
  id : String
  document : String
  meta : RecordMeta

/-- The persisted collection, in insertion order. -/
abbrev Collection := List StoredEntry

/-- `collection.count()`. -/
def chromaCount (store : Collection) : Nat := store.length

/-- `collection.add(...)` with one record: ChromaDB never overwrites an
existing id (a duplicate add is dropped with a warning). -/
def chromaAdd (store : Collection) (e : StoredEntry) : Collection :=
  if store.any (fun e' => e'.id == e.id) then store else store ++ [e]

/-- ChromaDB `where={"company": c}` equality between a scalar metadata value
and a string filter. -/
def jsonEqStr : Json → String → Bool
  | .str s, c => s == c
  | _, _ => false

/-- `_build_document`: the text that gets embedded — company/period header,
analyst summary, joined key highlights and concerns, newline-separated, each
section present only when its field is truthy.  Non-string parts appended raw
by the source are kept as raw values so that the final join raises exactly
when Python's would. -/
def buildDocument (analysis : Json) : Except PyErr String := do
  let company ← analysis.pyGetD "company_info" (Json.obj [])
  let nameV ← company.pyGetD "name" Json.null
  let p1 : List Json := if nameV.truthy then [Json.str ("Company: " ++ pyStr nameV)] else []
  let periodV ← company.pyGetD "reporting_period" Json.null
  let p2 : List Json := if periodV.truthy then [Json.str ("Period: " ++ pyStr periodV)] else []
  let summaryV ← analysis.pyGetD "analyst_summary" (Json.str "")
  let p3 : List Json := if summaryV.truthy then [summaryV] else []
  let highlightsV ← analysis.pyGetD "key_highlights" (Json.arr [])
  let p4 : List Json ←
    if highlightsV.truthy then do
      let joined ← pyJoin "; " highlightsV
      pure [Json.str ("Key highlights: " ++ joined)]
    else pure []
  let concernsV ← analysis.pyGetD "concerns_risks" (Json.arr [])
  let p5 : List Json ←
    if concernsV.truthy then do
      let joined ← pyJoin "; " concernsV
      pure [Json.str ("Concerns: " ++ joined)]
    else pure []
  pyJoin "\n" (Json.arr (p1 ++ p2 ++ p3 ++ p4 ++ p5))

/-- `report_id = f"{ticker}-{quarter}-{timestamp}".replace(" ", "_")`. -/
def reportIdOf (ticker quarter : Json) (timestamp : String) : String :=
  pyReplaceSpace (pyStr ticker ++ "-" ++ pyStr quarter ++ "-" ++ timestamp)

/-- The record assembled by `save_report` before the `collection.add` call:
id from ticker/period/timestamp, resolved company name (`company_name or
company_info.get("name", "Unknown")`), sentiment score
(`int(sentiment) if sentiment else 0`), embedded document and metadata.
`now` stands for `datetime.now().isoformat()`. -/
def mkSaveRecord (analysis : Json) (companyName : String) (now : String) :
    Except PyErr StoredEntry := do
  let companyInfo ← analysis.pyGetD "company_info" (Json.obj [])
  let ticker ← companyInfo.pyGetD "ticker" (Json.str "UNKNOWN")
  let quarter ← companyInfo.pyGetD "reporting_period" (Json.str "")
  let reportId := reportIdOf ticker quarter now
  let resolvedName ←
    if companyName ≠ "" then pure (Json.str companyName)
    else companyInfo.pyGetD "name" (Json.str "Unknown")
  let sentimentBlock ← analysis.pyGetD "sentiment_analysis" (Json.obj [])
  let sentiment ← sentimentBlock.pyGetD "sentiment_score" (Json.int 0)
  let score ← if sentiment.truthy then pyInt sentiment else pure 0
  let document ← buildDocument analysis
  pure { id := reportId, document := document,
         meta := { company := resolvedName, ticker := ticker, quarter := quarter,
                   timestamp := now, sentimentScore := score,
                   analysisJson := analysis } }

/-- `save_report`: build the record and add it to the collection, returning
the report id. -/
def saveReport (analysis : Json) (companyName : String) (now : String)
    (store : Collection) : Except PyErr (String × Collection) := do
  let e ← mkSaveRecord analysis companyName now
  pure (e.id, chromaAdd store e)

/-- A record as returned by `get_report`, including the full analysis
(`json.loads` of the stored dump). -/
structure ReportRecord where
  id : String
  timestamp : String
  company : Json
  sentimentScore : Int
  analysis : Json

/-- `get_report`: fetch by id (`collection.get(ids=[...])`), `None` when the
id is absent. -/
def getReport (store : Collection) (reportId : String) : Option ReportRecord :=
  match store.filter (fun e => e.id == reportId) with
  | [] => none
  | e :: _ =>
      some { id := reportId, timestamp := e.meta.timestamp,
             company := e.meta.company, sentimentScore := e.meta.sentimentScore,
             analysis := e.meta.analysisJson }

/-- Python's `list.sort(key=..., reverse=True)`: a stable descending sort,
modelled by insertion sort on the reversed key order (stable sorts agree on
their output).  Keys are compared as character lists — Python compares
strings lexicographically by code point, which is exactly the `List Char`
order (`String.le_iff_toList_le`). -/
def pySortByDesc (key : α → String) (l : List α) : List α :=
  List.insertionSort (fun a b => (key b).data ≤ (key a).data) l

/-- A history summary: every metadata field except the analysis payload. -/
structure HistoryEntry where
  id : String
  timestamp : String
  company : Json
  ticker : Json
  quarter : Json
  sentimentScore : Int

/-- The summary built for one stored record by `get_history`. -/
def histEntryOf (e : StoredEntry) : HistoryEntry :=
  { id := e.id, timestamp := e.meta.timestamp, company := e.meta.company,
    ticker := e.meta.ticker, quarter := e.meta.quarter,
    sentimentScore := e.meta.sentimentScore }

/-- `get_history`: all stored reports, sorted by timestamp, most recent
first. -/
def getHistory (store : Collection) : List HistoryEntry :=
  pySortByDesc (fun h => h.timestamp) (store.map histEntryOf)

/-- `round(x, 4)` on an exact rational.  Python rounds binary floats
half-to-even; the models differ only at exact half-ulp ties, which no claim
depends on. -/
def round4 (x : ℚ) : ℚ := (round (x * 10000) : ℚ) / 10000

/-- One entry of a `query_reports` result. -/
structure QueryReport where
  id : String
  company : Json
  quarter : Json
  timestamp : String
  sentimentScore : Int
  relevance : ℚ
  summary : String
  analysis : Json

/-- The optional `where={"company": company}` filter (applied only when the
argument is truthy). -/
def queryFilter (company : Option String) (store : Collection) : Collection :=
  match company with
  | some c => if c ≠ "" then store.filter (fun e => jsonEqStr e.meta.company c) else store
  | none => store

/-- `collection.query(...)`: ChromaDB's nearest-neighbour search, with the
embedding distance of each stored document to the query text supplied as the
oracle `dist`.  Results are the filtered records ordered by ascending
distance, truncated to `n_results`. -/
def chromaQuery (store : Collection) (dist : StoredEntry → ℚ) (nResults : Nat)
    (whereCompany : Option String) : List (StoredEntry × ℚ) :=
  (List.insertionSort (fun a b => a.2 ≤ b.2)
    ((queryFilter whereCompany store).map fun e => (e, dist e))).take nResults

/-- `query_reports`: semantic search across all stored reports.  `queryText`
only enters through the distance oracle `dist`. -/
def queryReports (_queryText : String) (n : Nat) (company : Option String)
    (dist : StoredEntry → ℚ) (store : Collection) : List QueryReport :=
  if chromaCount store = 0 then []
  else
    (chromaQuery store dist (min n (chromaCount store)) company).map fun ed =>
      { id := ed.1.id, company := ed.1.meta.company, quarter := ed.1.meta.quarter,
        timestamp := ed.1.meta.timestamp, sentimentScore := ed.1.meta.sentimentScore,
        relevance := round4 (1 - ed.2), summary := ed.1.document,
        analysis := ed.1.meta.analysisJson }

/-- One entry of a `get_company_context` result. -/
structure ContextReport where
  id : String
  quarter : Json
  timestamp : String
  summary : String

/-- The summary built for one stored record by `get_company_context`. -/
def ctxEntryOf (e : StoredEntry) : ContextReport :=
  { id := e.id, quarter := e.meta.quarter, timestamp := e.meta.timestamp,
    summary := e.document }

/-- `get_company_context`: past reports whose company metadata equals the
argument exactly, most recent first, truncated to `n`. -/
def getCompanyContext (store : Collection) (company : String) (n : Int) :
    List ContextReport :=
  if chromaCount store = 0 then []
  else
    let hits := store.filter fun e => jsonEqStr e.meta.company company
    if hits.isEmpty then []
    else pySliceTo n (pySortByDesc (fun r => r.timestamp) (hits.map ctxEntryOf))

/-- The markdown-fence stripping in `earnings_analyzer.analyze_earnings`:
prefer a ```json-labelled fence, fall back to any fence, else leave the text
unchanged.  Mirrors the source's `find`-and-slice arithmetic, including the
`find`-returns-`-1` slice behavior for an unterminated fence. -/
def legacyExtract (analysisText : String) : String :=
  if pyContains analysisText "```json" then
    let jsonStart := pyFind analysisText "```json" 0 + 7
    let jsonEnd := pyFind analysisText "```" jsonStart.toNat
    pyStrip (pySlice analysisText jsonStart jsonEnd)
  else if pyContains analysisText "```" then
    let jsonStart := pyFind analysisText "```" 0 + 3
    let jsonEnd := pyFind analysisText "```" jsonStart.toNat
    pyStrip (pySlice analysisText jsonStart jsonEnd)
  else analysisText

/-- `earnings_analyzer.analyze_earnings` from the model response text onward:
fence-strip, `json.loads`, attach the metadata dict `meta` (built by the
source from the clock, model id and usage counts), with the source's two
`except` arms.  Setting `["metadata"]` on a non-dict parse result raises
`TypeError`, which the generic `except Exception` arm turns into the
"Analysis failed" error object. -/
def legacyAnalyzeParse (responseText : String) (meta : Json) : Json :=
  let analysisText := legacyExtract responseText
  match jsonLoads analysisText with
  | .ok (Json.obj kvs) => Json.obj (assocSet kvs "metadata" meta)
  | .ok _ =>
      Json.obj [("error", .str "Analysis failed"),
                ("exception", .str "object does not support item assignment")]
  | .error e =>
      Json.obj [("error", .str "Failed to parse JSON response"),
                ("raw_analysis", .str analysisText),
                ("exception", .str e.text)]

/-- `earnings_analyzer.compare_earnings` from the response text onward: only
a ```json-labelled fence is stripped, and any failure is reported as
`{"error": str(e)}`. -/
def legacyCompareParse (responseText : String) : Json :=
  let analysisText :=
    if pyContains responseText "```json" then
      let jsonStart := pyFind responseText "```json" 0 + 7
      let jsonEnd := pyFind responseText "```" jsonStart.toNat
      pyStrip (pySlice responseText jsonStart jsonEnd)
    else responseText
  match jsonLoads analysisText with
  | .ok v => v
  | .error e => Json.obj [("error", .str e.text)]

/-- The usage dict read off the raw message (`{}` when the message carries
no usage metadata). -/
def usageJson : Option (Int × Int) → Json
  | some iu => Json.obj [("input", .int iu.1), ("output", .int iu.2)]
  | none => Json.obj []

/-- `Modules/analyzer._invoke_structured`: the LangChain structured call
either raises, or returns a `{"parsed": Optional[...], "raw": message}`
pair (`include_raw=True`); `data` is the parsed dump or `{}` when nothing
was parsed, `usage` is read off the raw message when present. -/
def invokeStructured (outcome : Except PyErr (Option Json × Option (Int × Int))) :
    Except PyErr (Json × Json) :=
  match outcome with
  | .error e => .error e
  | .ok (parsed, usageMeta) =>
      let data := match parsed with
        | some p => p
        | none => Json.obj []
      .ok (data, usageJson usageMeta)

/-- The metadata dict attached by `analyze_earnings`. -/
def analyzeMetadata (now provider modelName : String) (usage : Json) : Json :=
  Json.obj [("analyzed_at", .str now), ("provider", .str provider),
            ("model_used", .str modelName), ("token_usage", usage)]

/-- `Modules/analyzer.analyze_earnings`: structured invocation, metadata
attach, `except`-arm error object. -/
def analyzeEarnings (outcome : Except PyErr (Option Json × Option (Int × Int)))
    (now provider modelName : String) : Json :=
  match invokeStructured outcome with
  | .ok du => du.1.setKey "metadata" (analyzeMetadata now provider modelName du.2)
  | .error e =>
      Json.obj [("error", .str "Analysis failed"), ("exception", .str e.text)]

/-- `Modules/analyzer.analyze_with_context`: as `analyze_earnings` with a
`context_reports_used` count in the metadata. -/
def analyzeWithContext (outcome : Except PyErr (Option Json × Option (Int × Int)))
    (now provider modelName : String) (ctxCount : Nat) : Json :=
  match invokeStructured outcome with
  | .ok du =>
      du.1.setKey "metadata"
        (Json.obj [("analyzed_at", .str now), ("provider", .str provider),
                   ("model_used", .str modelName), ("token_usage", du.2),
                   ("context_reports_used", .int (ctxCount : Int))])
  | .error e =>
      Json.obj [("error", .str "Analysis failed"), ("exception", .str e.text)]

/-- `Modules/analyzer.compare_earnings` result handling (the `query` method
is identical): the parsed data verbatim, or `{"error": str(e)}`. -/
def compareEarnings (outcome : Except PyErr (Option Json × Option (Int × Int))) : Json :=
  match invokeStructured outcome with
  | .ok du => du.1
  | .error e => Json.obj [("error", .str e.text)]

/-- One entry of the provider registry (`Modules/config.PROVIDERS`). -/
structure ProviderCfg where
  name : String
  envKey : String
  defaultModel : String

/-- `Modules/config.PROVIDERS`: the fixed provider registry. -/
def PROVIDERS : List (String × ProviderCfg) :=
  [("anthropic", ⟨"Anthropic (Claude)", "ANTHROPIC_API_KEY", "claude-sonnet-4-20250514"⟩),
   ("openai", ⟨"OpenAI (GPT)", "OPENAI_API_KEY", "gpt-4o"⟩),
   ("gemini", ⟨"Google Gemini", "GEMINI_API_KEY", "gemini-2.0-flash"⟩),
   ("deepseek", ⟨"DeepSeek", "DEEPSEEK_API_KEY", "deepseek-chat"⟩)]

/-- A constructed provider SDK client. -/
structure SdkClient where
  provider : String
  apiKey : String
  baseUrl : Option String

/-- Modelled from the spec: the provider SDK client constructors
(`anthropic.Anthropic`, `openai.OpenAI`, `google.genai.Client`) are external
libraries, not part of this repository.  Per the spec, "absence of the
selected provider's credential fails fast with `ConfigurationError` at
invocation time": construction fails exactly when no key was resolved. -/
def mkSdkClient (provider : String) (key : Option String) (baseUrl : Option String) :
    Except PyErr SdkClient :=
  match key with
  | none => .error (.configurationError ("missing credential for provider " ++ provider))
  | some k => .ok ⟨provider, k, baseUrl⟩

/-- Python `a or b` on optional strings: `a` unless it is `None` or empty. -/
def pyOrStrOpt (a b : Option String) : Option String :=
  match a with
  | some s => if s ≠ "" then some s else b
  | none => b

/-- `Modules/providers.create_client`: registry lookup (`PROVIDERS[provider]`
raises `KeyError` on an unknown id, making the function's final
`raise ValueError` unreachable, as in the source), key resolution from the
argument or the provider's environment variable, then the SDK constructor.
`env` models `os.environ`. -/
def createClient (provider : String) (apiKey : Option String)
    (env : String → Option String) : Except PyErr SdkClient := do
  let config ← match PROVIDERS.lookup provider with
    | some c => Except.ok c
    | none => Except.error (.keyError provider)
  let key := pyOrStrOpt apiKey (env config.envKey)
  if provider = "anthropic" then mkSdkClient provider key none
  else if provider = "openai" then mkSdkClient provider key none
  else if provider = "gemini" then mkSdkClient provider key none
  else if provider = "deepseek" then mkSdkClient provider key (some "https://api.deepseek.com")
  else .error (.valueError ("Unknown provider: " ++ provider))

/-- Modelled from the spec: `create_model`, imported by `Modules/analyzer.py`
from `Modules/providers.py`, does not exist anywhere in the repository.  Per
the spec's Provider Adapter contract it builds the provider-bound client for
the registered provider, with the same credential-resolution behavior as the
client factory. -/
def createModel (provider : String) (apiKey : Option String)
    (env : String → Option String) : Except PyErr SdkClient :=
  createClient provider apiKey env

/-- The state of a constructed `EarningsReportAnalyzer`. -/
structure AnalyzerState where
  provider : String
  modelName : String
  model : SdkClient

/-- `EarningsReportAnalyzer.__init__`: membership check against the registry
(`ValueError` on an unknown provider), then model construction. -/
def analyzerInit (provider : String) (apiKey : Option String)
    (env : String → Option String) : Except PyErr AnalyzerState :=
  match PROVIDERS.lookup provider with
  | none => .error (.valueError ("Unknown provider '" ++ provider ++ "'"))
  | some cfg => do
      let model ← createModel provider apiKey env
      pure ⟨provider, cfg.defaultModel, model⟩

/-- A FastAPI handler outcome: the returned dict, or a `JSONResponse` with an
error status. -/
inductive ApiResponse where
  | ok (body : Json)
  | err (status : Nat) (body : Json)

/-- The persistence phase of the `analyze` endpoint: resolve the company name
(`company_name or result.get("company_info", {}).get("name", "Unknown")`)
and call `save_report`.  The outcome of that call — including any ChromaDB
I/O failure — is the oracle `saveOutcome`. -/
def analyzePersistPhase (result : Json) (companyName : String)
    (saveOutcome : Except PyErr String) : Except PyErr String := do
  let _resolved ←
    if companyName ≠ "" then pure (Json.str companyName)
    else do
      let ci ← result.pyGetD "company_info" (Json.obj [])
      ci.pyGetD "name" (Json.str "Unknown")
  saveOutcome

/-- `web_dashboard.analyze`, JSON-body mode, from the extracted text onward.
`analyzerOutcome` is everything between the text check and the save call
(context retrieval, analyzer construction, the analysis itself — the
analyzer methods themselves never raise, they return error dicts).  The
whole body sits in one `try`, so any raise is answered by the blanket
`except` arm as a 500 `{"error": str(e)}`. -/
def analyzeEndpoint (earningsText companyName : String)
    (analyzerOutcome : Except PyErr Json)
    (saveOutcome : Except PyErr String) : ApiResponse :=
  if pyStrip earningsText = "" then
    .err 400 (Json.obj [("error", .str "No earnings text provided")])
  else
    match analyzerOutcome with
    | .error e => .err 500 (Json.obj [("error", .str e.text)])
    | .ok result =>
      match analyzePersistPhase result companyName saveOutcome with
      | .ok _ => .ok result
      | .error e => .err 500 (Json.obj [("error", .str e.text)])

/-- The character layout of `datetime.now().isoformat()` output:
`YYYY-MM-DDTHH:MM:SS` (19 characters) or `YYYY-MM-DDTHH:MM:SS.ffffff`
(26 characters), digits and fixed punctuation at fixed positions. -/
def isoLayout (s : List Char) : Bool :=
  let at_ : Nat → Char := fun i => s.getD i ' '
  let dig : Nat → Bool := fun i => (at_ i).isDigit
  (dig 0 && dig 1 && dig 2 && dig 3 && at_ 4 == '-' && dig 5 && dig 6 &&
   at_ 7 == '-' && dig 8 && dig 9 && at_ 10 == 'T' && dig 11 && dig 12 &&
   at_ 13 == ':' && dig 14 && dig 15 && at_ 16 == ':' && dig 17 && dig 18) &&
  ((s.length == 19) ||
   ((s.length == 26) && (at_ 19 == '.' && dig 20 && dig 21 && dig 22 && dig 23 &&
    dig 24 && dig 25)))

/-- The shape of `datetime.now().isoformat()` output as it enters report ids
(the first three conjuncts are restated separately to keep them directly
accessible to proofs). -/
def isoShape (s : List Char) : Bool :=
  (!s.contains ' ') && (s.getD 0 ' ').isDigit && (s.getD 7 ' ' == '-') && isoLayout s

/-- `IsoTimestamp ts`: the string is a possible `datetime.now().isoformat()`
value. -/
def IsoTimestamp (ts : String) : Prop := isoShape ts.data = true

instance (ts : String) : Decidable (IsoTimestamp ts) := by
  unfold IsoTimestamp; infer_instance


/-- An optional string field as a JSON value (`None` when absent). -/
def optJson : Option String → Json
  | some s => .str s
  | none => .null

/-- The embedded-document text as the spec describes it: the newline-join of
company name, reporting period, analyst summary, semicolon-joined key
highlights and semicolon-joined concerns (with the source's section labels),
each part omitted when absent or empty. -/
def buildDocumentSpec (nameOpt periodOpt : Option String) (summary : String)
    (highlights concerns : List String) : String :=
  String.intercalate "\n"
    ((match nameOpt with
      | some s => if s = "" then [] else ["Company: " ++ s]
      | none => []) ++
     (match periodOpt with
      | some s => if s = "" then [] else ["Period: " ++ s]
      | none => []) ++
     (if summary = "" then [] else [summary]) ++
     (if highlights.isEmpty then []
      else ["Key highlights: " ++ String.intercalate "; " highlights]) ++
     (if concerns.isEmpty then []
      else ["Concerns: " ++ String.intercalate "; " concerns]))

/-- Every record written by `save_report` carries an isoformat creation
timestamp which is a suffix of its id (ids end in the timestamp, and the
space-to-underscore replacement never touches it). -/
def SavedShape (e : StoredEntry) : Prop :=
  IsoTimestamp e.meta.timestamp ∧ e.meta.timestamp.data <:+ e.id.data

/-- Replace every stored analysis payload (used to state that history
summaries do not depend on the payload). -/
def mapAnalysis (f : Json → Json) (store : Collection) : Collection :=
  store.map fun e =>
    { e with meta := { e.meta with analysisJson := f e.meta.analysisJson } }



/-- A concrete payload used to instantiate theorems with hypotheses. -/
def wPayload : Json :=
  Json.obj [("company_info", Json.obj [("ticker", Json.str "ACME"),
              ("reporting_period", Json.str "Q1 2025"), ("name", Json.str "Acme")]),
            ("analyst_summary", Json.str "Good quarter")]

/-- A concrete isoformat timestamp. -/
def wTs : String := "2025-04-01T10:00:00"

/-- The record `save_report` builds from `wPayload` at `wTs`. -/
def wEntry : StoredEntry :=
  { id := "ACME-Q1_2025-2025-04-01T10:00:00",
    document := "Company: Acme\nPeriod: Q1 2025\nGood quarter",
    meta := { company := Json.str "Acme", ticker := Json.str "ACME",
              quarter := Json.str "Q1 2025", timestamp := wTs,
              sentimentScore := 0, analysisJson := wPayload } }


/-- A store entry with the given id, timestamp and company (used to
instantiate the history/context theorems). -/
def wEntryAt (id ts company : String) : StoredEntry :=
  { id := id, document := "doc " ++ id,
    meta := { company := Json.str company, ticker := Json.str "T",
              quarter := Json.str "Q", timestamp := ts, sentimentScore := 0,
              analysisJson := Json.null } }

/-- Three records saved at increasing timestamps, stored out of order. -/
def wStore3 : Collection :=
  [wEntryAt "r2" "2025-01-02T00:00:00" "Acme",
   wEntryAt "r1" "2025-01-01T00:00:00" "Acme",
   wEntryAt "r3" "2025-01-03T00:00:00" "Acme"]


/-- Three records for "Acme" at increasing timestamps and one for "Globex"
(the spec's company-context example). -/
def wStore4 : Collection :=
  [wEntryAt "a1" "2025-01-01T00:00:00" "Acme",
   wEntryAt "g1" "2025-01-02T00:00:00" "Globex",
   wEntryAt "a2" "2025-01-03T00:00:00" "Acme",
   wEntryAt "a3" "2025-01-04T00:00:00" "Acme"]


/-- A concrete embedding-distance oracle for the query witness (reads the
sentiment field so that rational arithmetic stays in `norm_num` range). -/
def wDist : StoredEntry → ℚ := fun e => (e.meta.sentimentScore : ℚ) / 10

/-- Three records with pairwise distinct query distances under `wDist`. -/
def wStoreQ : Collection :=
  [{ id := "r2", document := "doc r2",
     meta := { company := Json.str "Acme", ticker := Json.str "T", quarter := Json.str "Q",
               timestamp := "2025-01-02T00:00:00", sentimentScore := 1,
               analysisJson := Json.null } },
   { id := "r1", document := "doc r1",
     meta := { company := Json.str "Acme", ticker := Json.str "T", quarter := Json.str "Q",
               timestamp := "2025-01-01T00:00:00", sentimentScore := 3,
               analysisJson := Json.null } },
   { id := "r3", document := "doc r3",
     meta := { company := Json.str "Acme", ticker := Json.str "T", quarter := Json.str "Q",
               timestamp := "2025-01-03T00:00:00", sentimentScore := 2,
               analysisJson := Json.null } }]


/-- A payload whose only content is a sentiment score. -/
def wPayloadS : Json :=
  Json.obj [("sentiment_analysis", Json.obj [("sentiment_score", Json.int 85)])]


/-- An environment with no credentials set. -/
def wEnvEmpty : String → Option String := fun _ => none

/-- An environment with only the Anthropic credential set. -/
def wEnvAnthropic : String → Option String :=
  fun v => if v = "ANTHROPIC_API_KEY" then some "sk-test" else none

/-! Support lemmas. -/

/-- Successful `Except` bind decomposes into a successful first step. -/
theorem exceptBind_ok {ε α β : Type} {x : Except ε α} {f : α → Except ε β} {b : β} :
    (x >>= f) = .ok b ↔ ∃ a, x = .ok a ∧ f a = .ok b := by
  constructor
  · intro h
    cases x with
    | error e => simp [Bind.bind, Except.bind] at h
    | ok a => exact ⟨a, rfl, by simpa [Bind.bind, Except.bind] using h⟩
  · rintro ⟨a, rfl, h⟩
    simpa [Bind.bind, Except.bind] using h

/-- Bind after a success just applies the continuation. -/
theorem exceptOkBind {ε α β : Type} {x : α} {f : α → Except ε β} :
    ((Except.ok x : Except ε α) >>= f) = f x := rfl

/-- Strings with equal character data are equal. -/
theorem String.eq_of_data {s t : String} (h : s.data = t.data) : s = t := by
  cases s; cases t; exact congrArg String.mk h

/-- Replacing spaces is the identity on space-free character lists. -/
theorem map_space_eq_self {l : List Char} (h : l.contains ' ' = false) :
    l.map (fun c => if c = ' ' then '_' else c) = l := by
  induction l with
  | nil => rfl
  | cons c t ih =>
    simp only [List.contains_cons, Bool.or_eq_false_iff] at h
    simp only [List.map_cons, ih h.2]
    have hc : ¬ c = ' ' := by intro hc; subst hc; simp at h
    simp [hc]

/-- `replace(" ", "_")` distributes over concatenation. -/
theorem pyReplaceSpace_append (a b : String) :
    (pyReplaceSpace (a ++ b)).data = (pyReplaceSpace a).data ++ (pyReplaceSpace b).data := by
  show ((a ++ b).data).map _ = _
  have h : (a ++ b).data = a.data ++ b.data := rfl
  rw [h, List.map_append]; rfl

/-- `replace(" ", "_")` fixes space-free strings. -/
theorem pyReplaceSpace_eq_self {s : String} (h : s.data.contains ' ' = false) :
    pyReplaceSpace s = s := by
  apply String.eq_of_data
  show s.data.map _ = s.data
  exact map_space_eq_self h

/-- The facts about isoformat timestamps used by the id-uniqueness argument:
no spaces, a digit first character, a dash at index 7, length 19 or 26. -/
theorem isoShape_spec {s : List Char} (h : isoShape s = true) :
    s.contains ' ' = false ∧ (s.getD 0 ' ').isDigit = true ∧ s.getD 7 ' ' = '-' ∧
    (s.length = 19 ∨ s.length = 26) := by
  simp only [isoShape, Bool.and_eq_true, beq_iff_eq, Bool.not_eq_true'] at h
  obtain ⟨⟨⟨hsp, hd0⟩, hdash⟩, hlay⟩ := h
  refine ⟨hsp, hd0, hdash, ?_⟩
  simp only [isoLayout, Bool.and_eq_true, Bool.or_eq_true, beq_iff_eq] at hlay
  obtain ⟨-, hlen⟩ := hlay
  rcases hlen with h19 | ⟨h26, -⟩
  · exact Or.inl h19
  · exact Or.inr h26

/-- Two isoformat timestamps that are both suffixes of one string are equal
(ordered version). -/
theorem iso_suffix_eq_aux {s t u : List Char} (hs : isoShape s = true)
    (ht : isoShape t = true) (hsu : s <:+ u) (htu : t <:+ u)
    (hle : s.length ≤ t.length) : s = t := by
  obtain ⟨-, hd0, -, hls⟩ := isoShape_spec hs
  obtain ⟨-, -, hdash7, hlt⟩ := isoShape_spec ht
  have hst : s <:+ t := List.suffix_of_suffix_length_le hsu htu hle
  rcases hls with hls | hls <;> rcases hlt with hlt | hlt
  · exact hst.eq_of_length (by omega)
  · -- a 19-character timestamp cannot be a suffix of a 26-character one:
    -- the dash at index 7 of the longer would have to be the digit at
    -- index 0 of the shorter
    exfalso
    obtain ⟨p, hp⟩ := hst
    have hplen : p.length = 7 := by
      have hl := congrArg List.length hp
      simp only [List.length_append] at hl
      omega
    have h7 : t.getD 7 ' ' = s.getD 0 ' ' := by
      rw [← hp, List.getD_append_right p s ' ' 7 (by omega)]
      simp [hplen]
    rw [hdash7] at h7
    rw [← h7] at hd0
    simp at hd0
  · omega
  · exact hst.eq_of_length (by omega)

/-- Two isoformat timestamps that are both suffixes of one string are
equal. -/
theorem iso_suffix_eq {s t u : List Char} (hs : isoShape s = true)
    (ht : isoShape t = true) (hsu : s <:+ u) (htu : t <:+ u) : s = t := by
  rcases le_total s.length t.length with hle | hle
  · exact iso_suffix_eq_aux hs ht hsu htu hle
  · exact (iso_suffix_eq_aux ht hs htu hsu hle).symm

/-- A report id decomposes as the replaced prefix followed by the untouched
timestamp. -/
theorem reportIdOf_data (tk qt : Json) {ts : String} (hts : IsoTimestamp ts) :
    (reportIdOf tk qt ts).data
      = (pyReplaceSpace (pyStr tk ++ "-" ++ pyStr qt ++ "-")).data ++ ts.data := by
  have hns : ts.data.contains ' ' = false := (isoShape_spec hts).1
  show (pyReplaceSpace ((pyStr tk ++ "-" ++ pyStr qt ++ "-") ++ ts)).data = _
  rw [pyReplaceSpace_append]
  rw [congrArg String.data (pyReplaceSpace_eq_self hns)]

/-- The timestamp is a suffix of the report id it was built into. -/
theorem reportIdOf_suffix (tk qt : Json) {ts : String} (hts : IsoTimestamp ts) :
    ts.data <:+ (reportIdOf tk qt ts).data := by
  rw [reportIdOf_data tk qt hts]
  exact ⟨_, rfl⟩

/-- Report ids built from different isoformat timestamps differ, whatever the
ticker and quarter values. -/
theorem reportIdOf_timestamp_inj {tk1 qt1 tk2 qt2 : Json} {ts1 ts2 : String}
    (h1 : IsoTimestamp ts1) (h2 : IsoTimestamp ts2)
    (heq : reportIdOf tk1 qt1 ts1 = reportIdOf tk2 qt2 ts2) : ts1 = ts2 := by
  apply String.eq_of_data
  have hs1 : ts1.data <:+ (reportIdOf tk1 qt1 ts1).data := reportIdOf_suffix tk1 qt1 h1
  have hs2 : ts2.data <:+ (reportIdOf tk1 qt1 ts1).data := by
    rw [heq]; exact reportIdOf_suffix tk2 qt2 h2
  exact iso_suffix_eq h1 h2 hs1 hs2

/-- What a successful `save_report` record build guarantees, for any payload:
the id is built by `reportIdOf` from the call's timestamp, and the metadata
carries the timestamp and the payload verbatim. -/
theorem mkSaveRecord_ok {a : Json} {cn ts : String} {e : StoredEntry}
    (h : mkSaveRecord a cn ts = .ok e) :
    (∃ tk qt, e.id = reportIdOf tk qt ts) ∧ e.meta.timestamp = ts ∧
    e.meta.analysisJson = a := by
  simp only [mkSaveRecord, pure, Except.pure] at h
  obtain ⟨ci, hci, h⟩ := exceptBind_ok.mp h
  obtain ⟨tk, htk, h⟩ := exceptBind_ok.mp h
  obtain ⟨qt, hqt, h⟩ := exceptBind_ok.mp h
  split at h <;>
  · obtain ⟨nm, hnm, h⟩ := exceptBind_ok.mp h
    obtain ⟨sb, hsb, h⟩ := exceptBind_ok.mp h
    obtain ⟨sv, hsv, h⟩ := exceptBind_ok.mp h
    split at h <;>
    · obtain ⟨sc, hsc, h⟩ := exceptBind_ok.mp h
      obtain ⟨doc, hdoc, h⟩ := exceptBind_ok.mp h
      cases h
      exact ⟨⟨tk, qt, rfl⟩, rfl, rfl⟩

/-- Claim C1: for every payload and company override, a successful
`save_report` at an isoformat timestamp distinct from that of every record
already in the store returns an id that (a) differs from the id of every
previously saved record, and (b) under which `get_report` finds a record
whose `analysis` deep-equals the saved payload; the new store is the old one
plus one record that again satisfies the saved-record shape. -/
theorem claim_C1_save_get_roundtrip (a : Json) (cn ts : String)
    (store : Collection) (i : String) (store' : Collection)
    (hts : IsoTimestamp ts)
    (hstore : ∀ e ∈ store, SavedShape e ∧ e.meta.timestamp ≠ ts)
    (hsave : saveReport a cn ts store = .ok (i, store')) :
    (∀ e ∈ store, e.id ≠ i) ∧
    (∃ r, getReport store' i = some r ∧ r.analysis = a ∧ r.timestamp = ts) ∧
    (∃ e, store' = store ++ [e] ∧ e.id = i ∧ SavedShape e) := by
  simp only [saveReport, pure, Except.pure] at hsave
  obtain ⟨e, hmk, hrest⟩ := exceptBind_ok.mp hsave
  obtain ⟨hi, hst⟩ : i = e.id ∧ store' = chromaAdd store e := by
    cases hrest; exact ⟨rfl, rfl⟩
  subst hi; subst hst
  obtain ⟨⟨tk, qt, hid⟩, htsE, hana⟩ := mkSaveRecord_ok hmk
  have hsuf : ts.data <:+ e.id.data := by
    rw [hid]; exact reportIdOf_suffix tk qt hts
  have hfresh : ∀ e' ∈ store, e'.id ≠ e.id := by
    intro e' he' heq
    obtain ⟨⟨hiso', hsuf'⟩, hne⟩ := hstore e' he'
    exact hne (String.eq_of_data (iso_suffix_eq hiso' hts (heq ▸ hsuf') hsuf))
  have hadd : chromaAdd store e = store ++ [e] := by
    unfold chromaAdd
    rw [if_neg]
    simp only [List.any_eq_true, beq_iff_eq, not_exists, not_and]
    exact fun e' he' => hfresh e' he'
  have hflt : (store ++ [e]).filter (fun x => x.id == e.id) = [e] := by
    rw [List.filter_append]
    have h1 : store.filter (fun x => x.id == e.id) = [] := by
      rw [List.filter_eq_nil_iff]
      intro e' he'
      simp only [beq_iff_eq]
      exact hfresh e' he'
    have h2 : [e].filter (fun x => x.id == e.id) = [e] := by simp
    rw [h1, h2, List.nil_append]
  have hshape : SavedShape e := by
    unfold SavedShape
    rw [htsE]
    exact ⟨hts, hsuf⟩
  refine ⟨hfresh, ⟨⟨e.id, e.meta.timestamp, e.meta.company, e.meta.sentimentScore,
    e.meta.analysisJson⟩, ?_, hana, htsE⟩, e, hadd, rfl, hshape⟩
  rw [hadd]; unfold getReport; rw [hflt]

/-- Witness for C1: saving `wPayload` into an empty store at `wTs` and
reading it back through `get_report`. -/
theorem claim_C1_witness :
    (∀ e ∈ ([] : Collection), e.id ≠ "ACME-Q1_2025-2025-04-01T10:00:00") ∧
    (∃ r, getReport [wEntry] "ACME-Q1_2025-2025-04-01T10:00:00" = some r ∧
      r.analysis = wPayload ∧ r.timestamp = wTs) ∧
    (∃ e, [wEntry] = ([] : Collection) ++ [e] ∧
      e.id = "ACME-Q1_2025-2025-04-01T10:00:00" ∧ SavedShape e) :=
  claim_C1_save_get_roundtrip wPayload "" wTs [] _ _ (by decide) (by simp) (by rfl)

/-- Claim C7: `get_history` returns one summary per stored record (a
permutation of the per-record summaries), ordered strictly descending by
creation timestamp whenever the stored timestamps are pairwise distinct, and
the summaries do not depend on the analysis payloads. -/
theorem claim_C7_history_order (store : Collection) (f : Json → Json)
    (hdist : (store.map fun e => e.meta.timestamp).Pairwise (· ≠ ·)) :
    (getHistory store).Perm (store.map histEntryOf) ∧
    (getHistory store).Pairwise (fun x y => y.timestamp < x.timestamp) ∧
    getHistory (mapAnalysis f store) = getHistory store := by
  haveI htot : IsTotal HistoryEntry (fun x y => y.timestamp.data ≤ x.timestamp.data) :=
    ⟨fun x y => le_total y.timestamp.data x.timestamp.data⟩
  haveI htr : IsTrans HistoryEntry (fun x y => y.timestamp.data ≤ x.timestamp.data) :=
    ⟨fun _ _ _ hab hbc => le_trans hbc hab⟩
  have hperm : (getHistory store).Perm (store.map histEntryOf) :=
    List.perm_insertionSort _ _
  have hle : (getHistory store).Pairwise (fun x y => y.timestamp.data ≤ x.timestamp.data) :=
    List.sorted_insertionSort _ _
  have hne : (getHistory store).Pairwise (fun x y => x.timestamp ≠ y.timestamp) := by
    have h1 : (store.map histEntryOf).Pairwise (fun x y => x.timestamp ≠ y.timestamp) := by
      rw [List.pairwise_map]
      rw [List.pairwise_map] at hdist
      exact hdist
    exact ((hperm.pairwise_iff fun h => Ne.symm h).mpr h1)
  refine ⟨hperm, ?_, ?_⟩
  · refine (hle.and hne).imp fun h => ?_
    rw [String.lt_iff_toList_lt]
    exact lt_of_le_of_ne h.1 fun hd => (Ne.symm h.2) (String.eq_of_data hd)
  · unfold getHistory mapAnalysis pySortByDesc
    rw [List.map_map]
    rfl

/-- Witness for C7: three records saved at times T1 < T2 < T3 come back in
order [T3, T2, T1]. -/
theorem claim_C7_witness :
    getHistory wStore3 =
      [histEntryOf (wEntryAt "r3" "2025-01-03T00:00:00" "Acme"),
       histEntryOf (wEntryAt "r2" "2025-01-02T00:00:00" "Acme"),
       histEntryOf (wEntryAt "r1" "2025-01-01T00:00:00" "Acme")] ∧
    ((getHistory wStore3).Perm (wStore3.map histEntryOf) ∧
     (getHistory wStore3).Pairwise (fun x y => y.timestamp < x.timestamp) ∧
     getHistory (mapAnalysis id wStore3) = getHistory wStore3) :=
  ⟨by rfl, claim_C7_history_order wStore3 id (by decide)⟩

/-- The ChromaDB metadata filter holds exactly for the matching string. -/
theorem jsonEqStr_iff {j : Json} {c : String} : jsonEqStr j c = true ↔ j = Json.str c := by
  cases j <;> simp [jsonEqStr]

/-- `l[:n]` for a natural bound is `take`. -/
theorem pySliceTo_natCast (n : Nat) (l : List α) : pySliceTo (n : Int) l = l.take n := by
  unfold pySliceTo sliceBound
  have h : ¬ ((n : Int) < 0) := by omega
  rw [if_neg h]
  simp only [Int.toNat_natCast]
  rcases le_total n l.length with h1 | h1
  · rw [min_eq_left h1]
  · rw [min_eq_right h1, List.take_length, List.take_of_length_le h1]

/-- Claim C8: `get_company_context(c, n)` returns only summaries of records
whose stored company metadata equals `c` exactly, most recent first, at most
`n` of them; the result is empty on an empty store and when no record
matches. -/
theorem claim_C8_company_context (store : Collection) (c : String) (n : Nat) :
    (∀ r ∈ getCompanyContext store c (n : Int),
        ∃ e ∈ store, e.meta.company = Json.str c ∧ r = ctxEntryOf e) ∧
    (getCompanyContext store c (n : Int)).length ≤ n ∧
    (getCompanyContext store c (n : Int)).Pairwise
      (fun x y => y.timestamp ≤ x.timestamp) ∧
    (store = [] → getCompanyContext store c (n : Int) = []) ∧
    ((∀ e ∈ store, e.meta.company ≠ Json.str c) →
      getCompanyContext store c (n : Int) = []) := by
  haveI htot : IsTotal ContextReport (fun x y => y.timestamp.data ≤ x.timestamp.data) :=
    ⟨fun x y => le_total y.timestamp.data x.timestamp.data⟩
  haveI htr : IsTrans ContextReport (fun x y => y.timestamp.data ≤ x.timestamp.data) :=
    ⟨fun _ _ _ hab hbc => le_trans hbc hab⟩
  by_cases h0 : chromaCount store = 0
  · have hnil : store = [] := List.length_eq_zero.mp h0
    subst hnil
    refine ⟨by simp [getCompanyContext, chromaCount], by simp [getCompanyContext, chromaCount],
      by simp [getCompanyContext, chromaCount], fun _ => rfl, fun _ => rfl⟩
  · have hform : getCompanyContext store c (n : Int)
        = pySliceTo (n : Int) (pySortByDesc (fun r => r.timestamp)
            ((store.filter fun e => jsonEqStr e.meta.company c).map ctxEntryOf)) := by
      unfold getCompanyContext
      rw [if_neg h0]
      by_cases hh : ((store.filter fun e => jsonEqStr e.meta.company c).isEmpty = true)
      · rw [if_pos hh]
        rw [List.isEmpty_iff] at hh
        rw [hh]
        simp [pySortByDesc, pySliceTo, List.insertionSort]
      · rw [if_neg hh]
    rw [hform, pySliceTo_natCast]
    refine ⟨?_, ?_, ?_, ?_, ?_⟩
    · intro r hr
      have hr1 : r ∈ pySortByDesc (fun r => r.timestamp)
          ((store.filter fun e => jsonEqStr e.meta.company c).map ctxEntryOf) :=
        List.take_subset _ _ hr
      have hr2 : r ∈ (store.filter fun e => jsonEqStr e.meta.company c).map ctxEntryOf :=
        ((List.perm_insertionSort _ _).mem_iff).mp hr1
      obtain ⟨e, he, hre⟩ := List.mem_map.mp hr2
      obtain ⟨hes, hep⟩ := List.mem_filter.mp he
      exact ⟨e, hes, jsonEqStr_iff.mp hep, hre.symm⟩
    · rw [List.length_take]
      exact min_le_left _ _
    · have hs : (pySortByDesc (fun r => r.timestamp)
          ((store.filter fun e => jsonEqStr e.meta.company c).map ctxEntryOf)).Pairwise
            (fun x y => y.timestamp.data ≤ x.timestamp.data) :=
        List.sorted_insertionSort _ _
      refine ((hs.sublist (List.take_sublist _ _))).imp fun h => ?_
      rw [String.le_iff_toList_le]
      exact h
    · intro hnil
      exact absurd (congrArg List.length hnil) (by simpa [chromaCount] using h0)
    · intro hnone
      have hf : (store.filter fun e => jsonEqStr e.meta.company c) = [] := by
        rw [List.filter_eq_nil_iff]
        intro e he
        simp only [Bool.not_eq_true]
        rcases hb : jsonEqStr e.meta.company c with _ | _
        · rfl
        · exact absurd (jsonEqStr_iff.mp hb) (hnone e he)
      rw [hf]
      simp [pySortByDesc, List.insertionSort]

/-- Witness for C8: the spec's example — three "Acme" records and one
"Globex" record, limit 2, yields the two most recent "Acme" summaries. -/
theorem claim_C8_witness :
    getCompanyContext wStore4 "Acme" (2 : Int)
      = [ctxEntryOf (wEntryAt "a3" "2025-01-04T00:00:00" "Acme"),
         ctxEntryOf (wEntryAt "a2" "2025-01-03T00:00:00" "Acme")] ∧
    ((∀ r ∈ getCompanyContext wStore4 "Acme" ((2 : Nat) : Int),
        ∃ e ∈ wStore4, e.meta.company = Json.str "Acme" ∧ r = ctxEntryOf e) ∧
     (getCompanyContext wStore4 "Acme" ((2 : Nat) : Int)).length ≤ 2 ∧
     (getCompanyContext wStore4 "Acme" ((2 : Nat) : Int)).Pairwise
       (fun x y => y.timestamp ≤ x.timestamp) ∧
     (wStore4 = [] → getCompanyContext wStore4 "Acme" ((2 : Nat) : Int) = []) ∧
     ((∀ e ∈ wStore4, e.meta.company ≠ Json.str "Acme") →
       getCompanyContext wStore4 "Acme" ((2 : Nat) : Int) = [])) :=
  ⟨by rfl, claim_C8_company_context wStore4 "Acme" 2⟩

/-- `round(1 - d, 4)` is monotone, so ascending distances give descending
relevance. -/
theorem round4_mono {x y : ℚ} (h : x ≤ y) : round4 x ≤ round4 y := by
  unfold round4
  have hr : round (x * 10000) ≤ round (y * 10000) := by
    rw [round_eq, round_eq]
    exact Int.floor_le_floor (by linarith)
  have h10 : (0 : ℚ) < 10000 := by norm_num
  exact (div_le_div_iff_of_pos_right h10).mpr (by exact_mod_cast hr)

/-- The optional company filter only selects stored records. -/
theorem queryFilter_subset (company : Option String) (store : Collection) :
    ∀ e ∈ queryFilter company store, e ∈ store := by
  intro e he
  cases company with
  | none => exact he
  | some cc =>
    have he' : e ∈ (if cc ≠ "" then store.filter (fun e => jsonEqStr e.meta.company cc)
        else store) := he
    split at he'
    · exact List.mem_of_mem_filter he'
    · exact he' 

/-- Claim C6: `query_reports` returns an empty sequence on an empty store;
otherwise it requests `min n (count)` results and returns at most that many,
each carrying `relevance = round(1 - distance, 4)` for its record's
embedding distance, ordered descending by relevance. -/
theorem claim_C6_query_reports (q : String) (n : Nat) (company : Option String)
    (dist : StoredEntry → ℚ) (store : Collection) :
    (store = [] → queryReports q n company dist store = []) ∧
    (queryReports q n company dist store).length ≤ min n (chromaCount store) ∧
    (∀ r ∈ queryReports q n company dist store,
        ∃ e ∈ store, r.id = e.id ∧ r.relevance = round4 (1 - dist e)) ∧
    (queryReports q n company dist store).Pairwise
      (fun x y => y.relevance ≤ x.relevance) := by
  haveI : IsTotal (StoredEntry × ℚ) (fun a b => a.2 ≤ b.2) := ⟨fun a b => le_total a.2 b.2⟩
  haveI : IsTrans (StoredEntry × ℚ) (fun a b => a.2 ≤ b.2) := ⟨fun _ _ _ => le_trans⟩
  refine ⟨fun h => by subst h; rfl, ?_⟩
  by_cases h0 : chromaCount store = 0
  · have hres : queryReports q n company dist store = [] := by
      unfold queryReports; rw [if_pos h0]
    rw [hres]
    exact ⟨by simp, by simp, by simp⟩
  · have hres : queryReports q n company dist store
        = (chromaQuery store dist (min n (chromaCount store)) company).map (fun ed =>
            { id := ed.1.id, company := ed.1.meta.company, quarter := ed.1.meta.quarter,
              timestamp := ed.1.meta.timestamp, sentimentScore := ed.1.meta.sentimentScore,
              relevance := round4 (1 - ed.2), summary := ed.1.document,
              analysis := ed.1.meta.analysisJson }) := by
      unfold queryReports; rw [if_neg h0]
    rw [hres]
    refine ⟨?_, ?_, ?_⟩
    · rw [List.length_map]
      unfold chromaQuery
      rw [List.length_take]
      exact min_le_left _ _
    · intro r hr
      obtain ⟨ed, hed, hre⟩ := List.mem_map.mp hr
      have hed1 : ed ∈ List.insertionSort (fun a b => a.2 ≤ b.2)
          ((queryFilter company store).map fun e => (e, dist e)) :=
        List.take_subset _ _ hed
      have hed2 : ed ∈ (queryFilter company store).map fun e => (e, dist e) :=
        (List.perm_insertionSort _ _).mem_iff.mp hed1
      obtain ⟨e, hef, hee⟩ := List.mem_map.mp hed2
      refine ⟨e, queryFilter_subset company store e hef, ?_, ?_⟩
      · rw [← hre, ← hee]
      · rw [← hre, ← hee]
    · have hs : (List.insertionSort (fun a b => a.2 ≤ b.2)
          ((queryFilter company store).map fun e => (e, dist e))).Pairwise
            (fun a b => a.2 ≤ b.2) := List.sorted_insertionSort _ _
      have ht := hs.sublist (List.take_sublist (min n (chromaCount store))
        (List.insertionSort (fun a b => a.2 ≤ b.2)
          ((queryFilter company store).map fun e => (e, dist e))))
      unfold chromaQuery
      rw [List.pairwise_map]
      exact ht.imp fun h => round4_mono (by linarith)

/-- Witness for C6: querying three stored records with limit 2 returns the
two nearest, with relevances `1 - distance` rounded to 4 places, descending. -/
theorem claim_C6_witness :
    (queryReports "margins" 2 none wDist wStoreQ).map (fun r => (r.id, r.relevance))
      = [("r2", 9/10), ("r3", 4/5)] ∧
    ((wStoreQ = [] → queryReports "margins" 2 none wDist wStoreQ = []) ∧
     (queryReports "margins" 2 none wDist wStoreQ).length ≤ min 2 (chromaCount wStoreQ) ∧
     (∀ r ∈ queryReports "margins" 2 none wDist wStoreQ,
         ∃ e ∈ wStoreQ, r.id = e.id ∧ r.relevance = round4 (1 - wDist e)) ∧
     (queryReports "margins" 2 none wDist wStoreQ).Pairwise
       (fun x y => y.relevance ≤ x.relevance)) :=
  ⟨by norm_num [queryReports, chromaQuery, queryFilter, chromaCount, List.insertionSort,
      List.orderedInsert, round4, round_eq, wDist, wStoreQ],
   claim_C6_query_reports "margins" 2 none wDist wStoreQ⟩

/-- Joining a list of strings succeeds and intercalates. -/
theorem strItems_map_str (l : List String) : strItems (l.map Json.str) = .ok l := by
  induction l with
  | nil => rfl
  | cons a t ih => simp [strItems, ih, pure, Except.pure, Bind.bind, Except.bind]

/-- `"; ".join` on a list of strings is string intercalation. -/
theorem pyJoin_strs (sep : String) (l : List String) :
    pyJoin sep (Json.arr (l.map Json.str)) = .ok (String.intercalate sep l) := by
  show (do
      let parts ← strItems (l.map Json.str)
      pure (String.intercalate sep parts) : Except PyErr String)
    = .ok (String.intercalate sep l)
  rw [strItems_map_str]
  rfl

/-- Claim C9: for payloads whose relevant fields are well-typed (name/period
strings or absent, summary a string, highlights/concerns lists of strings),
the embedded document equals the spec's newline-join of the five optional
parts, and `save_report` stores exactly that text — a pure deterministic
function of the payload. -/
theorem claim_C9_embedding_text (a ci : Json) (nameOpt periodOpt : Option String)
    (summary : String) (highlights concerns : List String)
    (hci : a.pyGetD "company_info" (Json.obj []) = .ok ci)
    (hnm : ci.pyGetD "name" Json.null = .ok (optJson nameOpt))
    (hpd : ci.pyGetD "reporting_period" Json.null = .ok (optJson periodOpt))
    (hsm : a.pyGetD "analyst_summary" (Json.str "") = .ok (Json.str summary))
    (hhl : a.pyGetD "key_highlights" (Json.arr []) = .ok (Json.arr (highlights.map Json.str)))
    (hcr : a.pyGetD "concerns_risks" (Json.arr []) = .ok (Json.arr (concerns.map Json.str))) :
    buildDocument a = .ok (buildDocumentSpec nameOpt periodOpt summary highlights concerns) ∧
    (∀ cn ts e, mkSaveRecord a cn ts = .ok e →
      e.document = buildDocumentSpec nameOpt periodOpt summary highlights concerns) := by
  have hmain : buildDocument a
      = .ok (buildDocumentSpec nameOpt periodOpt summary highlights concerns) := by
    simp only [buildDocument, hci, hnm, hpd, hsm, hhl, hcr, exceptOkBind]
    rcases nameOpt with _ | s1 <;> rcases periodOpt with _ | s2 <;>
      first
      | (by_cases hs1 : s1 = "" <;> by_cases hs2 : s2 = "" <;>
         by_cases hsm0 : summary = "" <;>
         rcases highlights with _ | ⟨x1, xs⟩ <;> rcases concerns with _ | ⟨y1, ys⟩ <;>
         simp_all [buildDocumentSpec, Json.truthy, optJson, pyStr, pyJoin, strItems,
           strItems_map_str, pure, Except.pure, Bind.bind, Except.bind])
      | (by_cases hs1 : s1 = "" <;> by_cases hsm0 : summary = "" <;>
         rcases highlights with _ | ⟨x1, xs⟩ <;> rcases concerns with _ | ⟨y1, ys⟩ <;>
         simp_all [buildDocumentSpec, Json.truthy, optJson, pyStr, pyJoin, strItems,
           strItems_map_str, pure, Except.pure, Bind.bind, Except.bind])
      | (by_cases hs2 : s2 = "" <;> by_cases hsm0 : summary = "" <;>
         rcases highlights with _ | ⟨x1, xs⟩ <;> rcases concerns with _ | ⟨y1, ys⟩ <;>
         simp_all [buildDocumentSpec, Json.truthy, optJson, pyStr, pyJoin, strItems,
           strItems_map_str, pure, Except.pure, Bind.bind, Except.bind])
      | (by_cases hsm0 : summary = "" <;>
         rcases highlights with _ | ⟨x1, xs⟩ <;> rcases concerns with _ | ⟨y1, ys⟩ <;>
         simp_all [buildDocumentSpec, Json.truthy, optJson, pyStr, pyJoin, strItems,
           strItems_map_str, pure, Except.pure, Bind.bind, Except.bind])
  refine ⟨hmain, ?_⟩
  intro cn ts e h
  simp only [mkSaveRecord, pure, Except.pure] at h
  obtain ⟨ci', -, h⟩ := exceptBind_ok.mp h
  obtain ⟨tk, -, h⟩ := exceptBind_ok.mp h
  obtain ⟨qt, -, h⟩ := exceptBind_ok.mp h
  split at h <;>
  · obtain ⟨nm, -, h⟩ := exceptBind_ok.mp h
    obtain ⟨sb, -, h⟩ := exceptBind_ok.mp h
    obtain ⟨sv, -, h⟩ := exceptBind_ok.mp h
    split at h <;>
    · obtain ⟨sc, -, h⟩ := exceptBind_ok.mp h
      obtain ⟨doc, hdoc, h⟩ := exceptBind_ok.mp h
      cases h
      rw [hmain] at hdoc
      injection hdoc with hd
      exact hd.symm

/-- Claim C10: the metadata stored by `save_report` carries
`int(sentiment_score)` when the payload's score is present and truthy and
`0` otherwise (so a score of 0, an absent score and an absent sentiment
block are stored identically), and the company is the non-empty override if
supplied, else the payload's `company_info.name`, else `"Unknown"` (the
`"Unknown"` default firing exactly when the name key is absent). -/
theorem claim_C10_metadata_derivation (a ci tk qt nm sb sv : Json) (cn ts : String)
    (v : Int) (doc : String)
    (hci : a.pyGetD "company_info" (Json.obj []) = .ok ci)
    (htk : ci.pyGetD "ticker" (Json.str "UNKNOWN") = .ok tk)
    (hqt : ci.pyGetD "reporting_period" (Json.str "") = .ok qt)
    (hnm : ci.pyGetD "name" (Json.str "Unknown") = .ok nm)
    (hsb : a.pyGetD "sentiment_analysis" (Json.obj []) = .ok sb)
    (hsv : sb.pyGetD "sentiment_score" (Json.int 0) = .ok sv)
    (hv : sv.truthy = true → pyInt sv = .ok v)
    (hdoc : buildDocument a = .ok doc) :
    ∃ e, mkSaveRecord a cn ts = .ok e ∧
      e.meta.sentimentScore = (if sv.truthy then v else 0) ∧
      e.meta.company = (if cn = "" then nm else Json.str cn) ∧
      e.meta.ticker = tk ∧ e.meta.quarter = qt ∧ e.meta.analysisJson = a := by
  refine ⟨⟨reportIdOf tk qt ts, doc,
      ⟨(if cn = "" then nm else Json.str cn), tk, qt, ts, (if sv.truthy then v else 0), a⟩⟩,
    ?_, rfl, rfl, rfl, rfl, rfl⟩
  by_cases hcn : cn = "" <;> cases hsvt : sv.truthy <;>
    simp_all [mkSaveRecord, exceptOkBind, pure, Except.pure]

/-- Witness for C9: the document built from `wPayload` is exactly the
spec-side join of its parts, and `save_report` stores it. -/
theorem claim_C9_witness :
    buildDocument wPayload
      = .ok (buildDocumentSpec (some "Acme") (some "Q1 2025") "Good quarter" [] []) ∧
    (∀ cn ts e, mkSaveRecord wPayload cn ts = .ok e →
      e.document = buildDocumentSpec (some "Acme") (some "Q1 2025") "Good quarter" [] []) :=
  claim_C9_embedding_text wPayload
    (Json.obj [("ticker", Json.str "ACME"), ("reporting_period", Json.str "Q1 2025"),
               ("name", Json.str "Acme")])
    (some "Acme") (some "Q1 2025") "Good quarter" [] []
    (by rfl) (by rfl) (by rfl) (by rfl) (by rfl) (by rfl)

/-- Witness for C10: a truthy score of 85 is stored as 85 with the payload's
company name; a payload with no sentiment block at all is stored with
score 0 and company "Unknown". -/
theorem claim_C10_witness :
    (∃ e, mkSaveRecord wPayloadS "" wTs = .ok e ∧
      e.meta.sentimentScore = (if (Json.int 85).truthy then 85 else 0) ∧
      e.meta.company = (if ("" : String) = "" then Json.str "Unknown" else Json.str "") ∧
      e.meta.ticker = Json.str "UNKNOWN" ∧ e.meta.quarter = Json.str "" ∧
      e.meta.analysisJson = wPayloadS) ∧
    (∃ e, mkSaveRecord wPayload "" wTs = .ok e ∧
      e.meta.sentimentScore = (if (Json.int 0).truthy then 0 else 0) ∧
      e.meta.company = (if ("" : String) = "" then Json.str "Acme" else Json.str "") ∧
      e.meta.ticker = Json.str "ACME" ∧ e.meta.quarter = Json.str "Q1 2025" ∧
      e.meta.analysisJson = wPayload) :=
  ⟨claim_C10_metadata_derivation wPayloadS (Json.obj []) (Json.str "UNKNOWN")
      (Json.str "") (Json.str "Unknown") (Json.obj [("sentiment_score", Json.int 85)])
      (Json.int 85) "" wTs 85 ""
      (by rfl) (by rfl) (by rfl) (by rfl) (by rfl) (by rfl) (fun _ => rfl) (by rfl),
   claim_C10_metadata_derivation wPayload
      (Json.obj [("ticker", Json.str "ACME"), ("reporting_period", Json.str "Q1 2025"),
                 ("name", Json.str "Acme")])
      (Json.str "ACME") (Json.str "Q1 2025") (Json.str "Acme") (Json.obj [])
      (Json.int 0) "" wTs 0 "Company: Acme\nPeriod: Q1 2025\nGood quarter"
      (by rfl) (by rfl) (by rfl) (by rfl) (by rfl) (by rfl) (fun _ => rfl) (by rfl)⟩

/-- Counterexample to C2 as stated: with a non-empty earnings text, a
successful extraction and a failing `save_report`, the `analyze` endpoint
answers with a 500 error body carrying only the exception text — the
structured result is discarded, not returned with a warning. -/
theorem claim_C2_counterexample :
    analyzeEndpoint "Acme Q1 earnings text" "Acme"
        (.ok (Json.obj [("analyst_summary", Json.str "Solid quarter")]))
        (.error (.storeError "chromadb write failed"))
      = .err 500 (Json.obj [("error", Json.str "chromadb write failed")]) ∧
    (∀ body, analyzeEndpoint "Acme Q1 earnings text" "Acme"
        (.ok (Json.obj [("analyst_summary", Json.str "Solid quarter")]))
        (.error (.storeError "chromadb write failed"))
      ≠ ApiResponse.ok body) := by
  refine ⟨by rfl, fun body h => ?_⟩
  rw [show analyzeEndpoint "Acme Q1 earnings text" "Acme"
      (.ok (Json.obj [("analyst_summary", Json.str "Solid quarter")]))
      (.error (.storeError "chromadb write failed"))
    = .err 500 (Json.obj [("error", Json.str "chromadb write failed")]) from rfl] at h
  exact ApiResponse.noConfusion h

/-- C2 amended: when the persistence phase of the `analyze` endpoint raises,
the endpoint returns a 500 error whose body is the exception text and the
structured result is discarded; the result is returned exactly when the
persistence phase succeeds.  With a caller-supplied company name the
persistence phase is the `save_report` call itself. -/
theorem claim_C2_amended (earningsText companyName : String) (result : Json)
    (outcome : Except PyErr String)
    (hne : ¬ pyStrip earningsText = "") :
    (∀ e, analyzePersistPhase result companyName outcome = .error e →
        analyzeEndpoint earningsText companyName (.ok result) outcome
          = .err 500 (Json.obj [("error", Json.str e.text)])) ∧
    (∀ i, analyzePersistPhase result companyName outcome = .ok i →
        analyzeEndpoint earningsText companyName (.ok result) outcome = .ok result) ∧
    (companyName ≠ "" → analyzePersistPhase result companyName outcome = outcome) := by
  refine ⟨?_, ?_, ?_⟩
  · intro e he
    simp [analyzeEndpoint, hne, he]
  · intro i hi
    simp [analyzeEndpoint, hne, hi]
  · intro hcn
    simp [analyzePersistPhase, hcn, exceptOkBind, pure, Except.pure]

/-- Witness for C2 (amended): concrete store failure and store success at the
endpoint. -/
theorem claim_C2_witness :
    (∀ e, analyzePersistPhase (Json.obj []) "Acme"
          (.error (.storeError "disk full")) = .error e →
        analyzeEndpoint "text" "Acme" (.ok (Json.obj []))
            (.error (.storeError "disk full"))
          = .err 500 (Json.obj [("error", Json.str e.text)])) ∧
    (∀ i, analyzePersistPhase (Json.obj []) "Acme"
          (.error (.storeError "disk full")) = .ok i →
        analyzeEndpoint "text" "Acme" (.ok (Json.obj []))
            (.error (.storeError "disk full")) = .ok (Json.obj [])) ∧
    ("Acme" ≠ "" → analyzePersistPhase (Json.obj []) "Acme"
        (.error (.storeError "disk full")) = .error (.storeError "disk full")) :=
  claim_C2_amended "text" "Acme" (Json.obj []) (.error (.storeError "disk full"))
    (by decide)

/-- Counterexample to C3 as stated: a model response with no parseable
structured content (LangChain returns `parsed=None` without raising) makes
`analyze_earnings` return a dict containing only metadata — a silently
empty structured result, not an error object. -/
theorem claim_C3_counterexample :
    analyzeEarnings (.ok (none, some (120, 80))) "2025-04-01T10:00:00" "anthropic"
        "claude-sonnet-4-20250514"
      = Json.obj [("metadata", analyzeMetadata "2025-04-01T10:00:00" "anthropic"
          "claude-sonnet-4-20250514"
          (Json.obj [("input", Json.int 120), ("output", Json.int 80)]))] := by rfl

/-- C3 amended: a raised exception yields an explicit error object carrying a
message and the exception text, and a parsed dict comes back with metadata
attached; but an invocation that returns no parsed object yields a
metadata-only dict from `analyze_earnings` (and an empty dict from
`compare_earnings`/`query`), with no error object. -/
theorem claim_C3_amended (e : PyErr) (um : Option (Int × Int))
    (kvs : List (String × Json)) (now provider modelName : String) :
    analyzeEarnings (.error e) now provider modelName
      = Json.obj [("error", Json.str "Analysis failed"), ("exception", Json.str e.text)] ∧
    analyzeEarnings (.ok (none, um)) now provider modelName
      = Json.obj [("metadata", analyzeMetadata now provider modelName (usageJson um))] ∧
    analyzeEarnings (.ok (some (Json.obj kvs), um)) now provider modelName
      = Json.obj (assocSet kvs "metadata" (analyzeMetadata now provider modelName (usageJson um))) ∧
    compareEarnings (.error e) = Json.obj [("error", Json.str e.text)] ∧
    compareEarnings (.ok (none, um)) = Json.obj [] :=
  ⟨rfl, rfl, rfl, rfl, rfl⟩

/-- A successful registry lookup pins the provider id and its credential
variable to one of the four registered entries. -/
theorem lookup_PROVIDERS_cases {provider : String} {cfg : ProviderCfg}
    (h : PROVIDERS.lookup provider = some cfg) :
    (provider = "anthropic" ∧ cfg.envKey = "ANTHROPIC_API_KEY") ∨
    (provider = "openai" ∧ cfg.envKey = "OPENAI_API_KEY") ∨
    (provider = "gemini" ∧ cfg.envKey = "GEMINI_API_KEY") ∨
    (provider = "deepseek" ∧ cfg.envKey = "DEEPSEEK_API_KEY") := by
  by_cases e1 : provider = "anthropic"
  · subst e1
    simp [PROVIDERS, List.lookup] at h
    exact Or.inl ⟨rfl, by rw [← h]⟩
  by_cases e2 : provider = "openai"
  · subst e2
    simp [PROVIDERS, List.lookup] at h
    exact Or.inr (Or.inl ⟨rfl, by rw [← h]⟩)
  by_cases e3 : provider = "gemini"
  · subst e3
    simp [PROVIDERS, List.lookup] at h
    exact Or.inr (Or.inr (Or.inl ⟨rfl, by rw [← h]⟩))
  by_cases e4 : provider = "deepseek"
  · subst e4
    simp [PROVIDERS, List.lookup] at h
    exact Or.inr (Or.inr (Or.inr ⟨rfl, by rw [← h]⟩))
  · exfalso
    have b1 : (provider == "anthropic") = false := beq_eq_false_iff_ne.mpr e1
    have b2 : (provider == "openai") = false := beq_eq_false_iff_ne.mpr e2
    have b3 : (provider == "gemini") = false := beq_eq_false_iff_ne.mpr e3
    have b4 : (provider == "deepseek") = false := beq_eq_false_iff_ne.mpr e4
    simp [PROVIDERS, List.lookup, b1, b2, b3, b4] at h

/-- Claim C4: the registry is exactly {anthropic, openai, gemini, deepseek};
an unregistered provider id fails (KeyError in `create_client`, ValueError
in the analyzer constructor — the spec's `ConfigurationError` class); a
registered provider with no explicit key and no credential in the
environment fails at invocation time with the (spec-modelled) SDK
`ConfigurationError`; a registered provider with a credential present
constructs a client without error. -/
theorem claim_C4_provider_configuration (provider : String) (apiKey : Option String)
    (env : String → Option String) :
    PROVIDERS.map (fun p => p.1) = ["anthropic", "openai", "gemini", "deepseek"] ∧
    (PROVIDERS.lookup provider = none →
        createClient provider apiKey env = .error (.keyError provider) ∧
        analyzerInit provider apiKey env
          = .error (.valueError ("Unknown provider '" ++ provider ++ "'"))) ∧
    (∀ cfg, PROVIDERS.lookup provider = some cfg → apiKey = none →
        env cfg.envKey = none →
        createClient provider apiKey env
          = .error (.configurationError ("missing credential for provider " ++ provider))) ∧
    (∀ cfg k, PROVIDERS.lookup provider = some cfg → apiKey = some k → k ≠ "" →
        ∃ c, createClient provider apiKey env = .ok c) ∧
    (∀ cfg k, PROVIDERS.lookup provider = some cfg → apiKey = none →
        env cfg.envKey = some k →
        ∃ c, createClient provider apiKey env = .ok c) := by
  refine ⟨rfl, ?_, ?_, ?_, ?_⟩
  · intro hnone
    constructor
    · simp [createClient, hnone, Bind.bind, Except.bind]
    · simp [analyzerInit, hnone]
  · intro cfg hcfg hak henv
    subst hak
    rcases lookup_PROVIDERS_cases hcfg with ⟨rfl, hek⟩ | ⟨rfl, hek⟩ | ⟨rfl, hek⟩ | ⟨rfl, hek⟩ <;>
      rw [hek] at henv <;>
      simp [createClient, PROVIDERS, List.lookup, pyOrStrOpt, mkSdkClient, henv,
        exceptOkBind, pure, Except.pure, Bind.bind, Except.bind]
  · intro cfg k hcfg hak hk
    subst hak
    rcases lookup_PROVIDERS_cases hcfg with ⟨rfl, hek⟩ | ⟨rfl, hek⟩ | ⟨rfl, hek⟩ | ⟨rfl, hek⟩
    · exact ⟨⟨"anthropic", k, none⟩, by simp [createClient, PROVIDERS, List.lookup,
        pyOrStrOpt, mkSdkClient, hk, exceptOkBind, pure, Except.pure, Bind.bind, Except.bind]⟩
    · exact ⟨⟨"openai", k, none⟩, by simp [createClient, PROVIDERS, List.lookup,
        pyOrStrOpt, mkSdkClient, hk, exceptOkBind, pure, Except.pure, Bind.bind, Except.bind]⟩
    · exact ⟨⟨"gemini", k, none⟩, by simp [createClient, PROVIDERS, List.lookup,
        pyOrStrOpt, mkSdkClient, hk, exceptOkBind, pure, Except.pure, Bind.bind, Except.bind]⟩
    · exact ⟨⟨"deepseek", k, some "https://api.deepseek.com"⟩,
        by simp [createClient, PROVIDERS, List.lookup, pyOrStrOpt, mkSdkClient, hk,
          exceptOkBind, pure, Except.pure, Bind.bind, Except.bind]⟩
  · intro cfg k hcfg hak henv
    subst hak
    rcases lookup_PROVIDERS_cases hcfg with ⟨rfl, hek⟩ | ⟨rfl, hek⟩ | ⟨rfl, hek⟩ | ⟨rfl, hek⟩ <;>
      rw [hek] at henv
    · exact ⟨⟨"anthropic", k, none⟩, by simp [createClient, PROVIDERS, List.lookup,
        pyOrStrOpt, mkSdkClient, henv, exceptOkBind, pure, Except.pure, Bind.bind, Except.bind]⟩
    · exact ⟨⟨"openai", k, none⟩, by simp [createClient, PROVIDERS, List.lookup,
        pyOrStrOpt, mkSdkClient, henv, exceptOkBind, pure, Except.pure, Bind.bind, Except.bind]⟩
    · exact ⟨⟨"gemini", k, none⟩, by simp [createClient, PROVIDERS, List.lookup,
        pyOrStrOpt, mkSdkClient, henv, exceptOkBind, pure, Except.pure, Bind.bind, Except.bind]⟩
    · exact ⟨⟨"deepseek", k, some "https://api.deepseek.com"⟩,
        by simp [createClient, PROVIDERS, List.lookup, pyOrStrOpt, mkSdkClient, henv,
          exceptOkBind, pure, Except.pure, Bind.bind, Except.bind]⟩

/-- Witness for C4: an unregistered id fails both entry points; a registered
id with no credential anywhere fails with the configuration error; the same
id succeeds once its environment variable is set. -/
theorem claim_C4_witness :
    (createClient "ollama" none wEnvEmpty = .error (.keyError "ollama") ∧
     analyzerInit "ollama" none wEnvEmpty
       = .error (.valueError "Unknown provider 'ollama'")) ∧
    createClient "anthropic" none wEnvEmpty
      = .error (.configurationError "missing credential for provider anthropic") ∧
    (∃ c, createClient "anthropic" none wEnvAnthropic = .ok c) :=
  ⟨(claim_C4_provider_configuration "ollama" none wEnvEmpty).2.1 (by rfl),
   (claim_C4_provider_configuration "anthropic" none wEnvEmpty).2.2.1
     ⟨"Anthropic (Claude)", "ANTHROPIC_API_KEY", "claude-sonnet-4-20250514"⟩
     (by rfl) rfl (by rfl),
   (claim_C4_provider_configuration "anthropic" none wEnvAnthropic).2.2.2.2
     ⟨"Anthropic (Claude)", "ANTHROPIC_API_KEY", "claude-sonnet-4-20250514"⟩
     "sk-test" (by rfl) rfl (by rfl)⟩

/-- A text containing a json-labelled fence marker contains a plain fence
marker. -/
theorem pyContains_fence_of_json {s : String} (h : pyContains s "```json" = true) :
    pyContains s "```" = true := by
  unfold pyContains at h ⊢
  rw [decide_eq_true_iff] at h ⊢
  unfold pyFind at h ⊢
  cases hf : (List.range (s.data.length + 1)).find?
      (fun i => decide (0 ≤ i) && ("```json".data.isPrefixOf (s.data.drop i))) with
  | none =>
    rw [hf] at h
    simp at h
  | some i =>
    have hp := List.find?_some hf
    have hmem := List.mem_of_find?_eq_some hf
    simp only [Bool.and_eq_true, decide_eq_true_iff] at hp
    have hpre : "```".data.isPrefixOf (s.data.drop i) = true := by
      rw [List.isPrefixOf_iff_prefix] at hp ⊢
      exact List.IsPrefix.trans (by decide) hp.2
    cases hg : (List.range (s.data.length + 1)).find?
        (fun j => decide (0 ≤ j) && ("```".data.isPrefixOf (s.data.drop j))) with
    | none =>
      exfalso
      have := List.find?_eq_none.mp hg i hmem
      simp only [Bool.and_eq_true, decide_eq_true_iff] at this
      exact this ⟨Nat.zero_le i, hpre⟩
    | some j =>
      exact Int.natCast_nonneg j

/-- Counterexample to C5 as stated: for the fenced unparseable response
"```json⏎not json⏎```", the failure object's `raw_analysis` is the
fence-extracted text "not json", not the original raw response text. -/
theorem claim_C5_counterexample :
    legacyAnalyzeParse "```json\nnot json\n```" (Json.obj [])
      = Json.obj [("error", Json.str "Failed to parse JSON response"),
                  ("raw_analysis", Json.str "not json"),
                  ("exception", Json.str "expecting value")] ∧
    ("not json" : String) ≠ "```json\nnot json\n```" :=
  ⟨by rfl, by decide⟩

/-- C5 amended: extraction prefers a ```json-labelled fence, falls back to
any fence, else uses the raw text; on a parse failure the failure object
preserves the fence-extracted (stripped) text — which equals the original
raw text exactly when no fence marker occurs in it. -/
theorem claim_C5_amended (raw : String) (meta : Json) (e : PyErr)
    (hfail : jsonLoads (legacyExtract raw) = .error e) :
    legacyAnalyzeParse raw meta
      = Json.obj [("error", Json.str "Failed to parse JSON response"),
                  ("raw_analysis", Json.str (legacyExtract raw)),
                  ("exception", Json.str e.text)] ∧
    (pyContains raw "```" = false → legacyExtract raw = raw) := by
  constructor
  · simp [legacyAnalyzeParse, hfail]
  · intro hnc
    have hnj : pyContains raw "```json" = false := by
      rcases hj : pyContains raw "```json" with _ | _
      · rfl
      · rw [pyContains_fence_of_json hj] at hnc
        cases hnc
    unfold legacyExtract
    rw [if_neg (by rw [hnj]; exact fun hx => Bool.false_ne_true hx),
        if_neg (by rw [hnc]; exact fun hx => Bool.false_ne_true hx)]

/-- Witness for C5 (amended): the unfenced unparseable input "not json"
keeps its raw text in the failure object, and a fenced parseable input
round-trips through extraction (spec's positive example). -/
theorem claim_C5_witness :
    (legacyAnalyzeParse "not json" (Json.obj [])
      = Json.obj [("error", Json.str "Failed to parse JSON response"),
                  ("raw_analysis", Json.str (legacyExtract "not json")),
                  ("exception", Json.str "expecting value")] ∧
     (pyContains "not json" "```" = false → legacyExtract "not json" = "not json")) ∧
    legacyAnalyzeParse "```json\n\x7b\"a\": 1\x7d\n```" (Json.obj [("m", Json.int 1)])
      = Json.obj [("a", Json.int 1), ("metadata", Json.obj [("m", Json.int 1)])] :=
  ⟨claim_C5_amended "not json" (Json.obj []) (.jsonDecodeError "expecting value") (by rfl),
   by rfl⟩
